import Mathlib

/-!
Verification of the trend-analysis core of the climate-change dashboard
(`src/climate_change_dataset.py`).

The script's numeric core works on a table of records; a regression pair is a
list of (predictor, response) values drawn from two columns.  Exact rational
arithmetic stands in for the script's floating point; `Real.sqrt` appears only
in the Pearson correlation coefficient.
-/

namespace Climate

/-! ## Column statistics over a list of (predictor, response) pairs -/

/-- Sum of the predictor column. -/
def sumX (l : List (ℚ × ℚ)) : ℚ := (l.map Prod.fst).sum

/-- Sum of the response column. -/
def sumY (l : List (ℚ × ℚ)) : ℚ := (l.map Prod.snd).sum

/-- Sum of squared predictor values. -/
def sumXX (l : List (ℚ × ℚ)) : ℚ := (l.map fun p => p.1 * p.1).sum

/-- Sum of predictor·response products. -/
def sumXY (l : List (ℚ × ℚ)) : ℚ := (l.map fun p => p.1 * p.2).sum

/-- Mean of the predictor column. -/
def meanX (l : List (ℚ × ℚ)) : ℚ := sumX l / l.length

/-- Mean of the response column. -/
def meanY (l : List (ℚ × ℚ)) : ℚ := sumY l / l.length

/-- Centered cross-product sum `Σ (x - x̄)(y - ȳ)` (covariance numerator). -/
def covS (l : List (ℚ × ℚ)) : ℚ :=
(l.map fun p => (p.1 - meanX l) * (p.2 - meanY l)).sum

/-- Centered square sum of the predictor `Σ (x - x̄)²` (variance numerator). -/
def varxS (l : List (ℚ × ℚ)) : ℚ :=
(l.map fun p => (p.1 - meanX l) ^ 2).sum

/-- Centered square sum of the response `Σ (y - ȳ)²`. -/
def varyS (l : List (ℚ × ℚ)) : ℚ :=
(l.map fun p => (p.2 - meanY l) ^ 2).sum

/-- Normal-equation denominator `n·Σx² − (Σx)²` of the library OLS routine. -/
def olsDenom (l : List (ℚ × ℚ)) : ℚ :=
(l.length : ℚ) * sumXX l - sumX l * sumX l

/-- Normal-equation slope `(n·Σxy − Σx·Σy) / (n·Σx² − (Σx)²)`. -/
def olsSlope (l : List (ℚ × ℚ)) : ℚ :=
((l.length : ℚ) * sumXY l - sumX l * sumY l) / olsDenom l

/-- Normal-equation intercept `(Σy − slope·Σx) / n`. -/
def olsIntercept (l : List (ℚ × ℚ)) : ℚ :=
(sumY l - olsSlope l * sumX l) / l.length

/-- The single-variable OLS routine the script calls
(`sklearn.linear_model.LinearRegression` at line 196 and the statsmodels fit
behind `px.scatter(..., trendline="ols")` at lines 160-171): both solve the
normal equations of `response ~ predictor`, whose closed form in raw sums is
`slope = (n·Σxy − Σx·Σy) / (n·Σx² − (Σx)²)`.  The quotient is undefined
(floating point: NaN or a raised error) when the denominator vanishes, which
happens exactly on an empty or single-record input or a constant predictor;
that undefined case is `none`. -/
def linregress (l : List (ℚ × ℚ)) : Option (ℚ × ℚ) :=
if olsDenom l = 0 then none else some (olsSlope l, olsIntercept l)

/-- Slope of the spec's closed form: covariance / variance (the common factor
`1/n` of covariance and variance cancels in the quotient). -/
def fitSlope (l : List (ℚ × ℚ)) : ℚ := (covS l / l.length) / (varxS l / l.length)

/-- Intercept of the spec's closed form: `mean y − slope · mean x`. -/
def fitIntercept (l : List (ℚ × ℚ)) : ℚ := meanY l - fitSlope l * meanX l

/-- The spec's error taxonomy (§7). -/
inductive ErrorType
| SourceUnreadable
| MalformedSource
| MissingColumn
| InsufficientData
deriving DecidableEq, Repr

/-- Modelled from the spec: `fit_trend` (§4.2), absent from the source — the
script calls library regressions without any precondition guard.  Closed-form
OLS with the `InsufficientData` guard for fewer than 2 records or a
zero-variance predictor. -/
def fit_trend (l : List (ℚ × ℚ)) : Except ErrorType (ℚ × ℚ) :=
if l.length < 2 ∨ varxS l = 0 then .error .InsufficientData
else .ok (fitSlope l, fitIntercept l)

/-- Pearson correlation coefficient, as `pandas.Series.corr` (line 258)
computes it: `Σ(x−x̄)(y−ȳ) / √(Σ(x−x̄)²·Σ(y−ȳ)²)`; the sample-size
normalisations of covariance and the two standard deviations cancel. -/
noncomputable def pearson (l : List (ℚ × ℚ)) : ℝ :=
(covS l : ℝ) / (Real.sqrt (varxS l) * Real.sqrt (varyS l))

/-! ## The raw table and the script's preparation pipeline (lines 114-148) -/

/-- One cell of the raw `Year` column: a numeric value, a non-numeric string,
or a missing entry.  `pd.to_numeric(..., errors='coerce')` maps the last two
to NaN. -/
inductive YearCell
| num (q : ℚ)
| text
| blank
deriving DecidableEq, Repr

/-- One raw row: the `Year` cell plus the six metric cells, where `none`
models a missing value (NaN). -/
structure RawRow where
  year : YearCell
  temp : Option ℚ
  co2 : Option ℚ
  renew : Option ℚ
  forest : Option ℚ
  events : Option ℚ
  sea : Option ℚ
deriving DecidableEq, Repr

/-- A parsed DataFrame: its column names and its rows. -/
structure DataFrame where
  columns : List String
  rows : List RawRow
deriving DecidableEq, Repr

/-- The empty DataFrame `pd.DataFrame()` bound by every load-failure handler
(lines 120-131): no columns, no rows. -/
def emptyDF : DataFrame := ⟨[], []⟩

/-- Outcome of `pd.read_csv(url)` (line 118), one constructor per handler of
the try/except chain at lines 117-131. -/
inductive LoadResult
| ok (df : DataFrame)
| fileNotFound
| emptyData
| parserError
| otherError
deriving DecidableEq, Repr

/-- The DataFrame the script continues with after the load block: the parsed
frame on success, the empty frame after any handled load exception. -/
def fallbackDF : LoadResult → DataFrame
| .ok df => df
| _ => emptyDF

/-- Unhandled Python exceptions the pipeline can raise. -/
inductive PyError
| keyError (col : String)
| intCastingNaN
deriving DecidableEq, Repr

/-- A row after line 134: integer year, metric cells unchanged. -/
structure IntRow where
  year : ℤ
  temp : Option ℚ
  co2 : Option ℚ
  renew : Option ℚ
  forest : Option ℚ
  events : Option ℚ
  sea : Option ℚ
deriving DecidableEq, Repr

/-- A fully populated record after the dropna of lines 137-141. -/
structure Record where
  year : ℤ
  temp : ℚ
  co2 : ℚ
  renew : ℚ
  forest : ℚ
  events : ℚ
  sea : ℚ
deriving DecidableEq, Repr

/-- `pd.to_numeric(cell, errors='coerce')`: non-numeric and missing become
NaN (`none`). -/
def toNumericCoerce : YearCell → Option ℚ
| .num q => some q
| .text => none
| .blank => none

/-- `.astype(int)` truncation toward zero of a rational year value. -/
def truncToInt (q : ℚ) : ℤ := q.num / (q.den : ℤ)

/-- Year coercion of one row; `none` when `astype(int)` would hit NaN. -/
def coerceRow (r : RawRow) : Option IntRow :=
(toNumericCoerce r.year).map fun q =>
  ⟨truncToInt q, r.temp, r.co2, r.renew, r.forest, r.events, r.sea⟩

/-- Line 134, `df['Year'] = pd.to_numeric(df['Year'], errors='coerce')
.astype(int)`: raises `KeyError` when the frame has no `Year` column, and
`IntCastingNaNError` when any coerced year is NaN — `astype(int)` cannot
convert non-finite values, so a non-numeric or missing year crashes here
before the dropna can remove it. -/
def coerceYears (df : DataFrame) : Except PyError (List IntRow) :=
if "Year" ∈ df.columns then
  if df.rows.all (fun r => (toNumericCoerce r.year).isSome) then
    .ok (df.rows.filterMap coerceRow)
  else .error .intCastingNaN
else .error (.keyError "Year")

/-- The seven column names of the dropna subset (lines 137-141). -/
def subsetCols : List String :=
["Year", "Avg Temperature (°C)", "CO2 Emissions (Tons/Capita)",
 "Renewable Energy (%)", "Forest Area (%)",
 "Extreme Weather Events", "Sea Level Rise (mm)"]

/-- A row survives the dropna only when all six metric cells are present. -/
def toRecord : IntRow → Option Record
| ⟨y, some t, some c, some rn, some f, some e, some s⟩ =>
    some ⟨y, t, c, rn, f, e, s⟩
| _ => none

/-- Lines 137-141, `df.dropna(subset=[...])`: raises `KeyError` on the first
subset column absent from the frame, otherwise drops every row with a missing
metric value. -/
def dropnaStep (cols : List String) (l : List IntRow) : Except PyError (List Record) :=
match subsetCols.find? (fun c => !(cols.contains c)) with
| some c => .error (.keyError c)
| none => .ok (l.filterMap toRecord)

/-- Whether a record's year lies in the inclusive slider range (line 144). -/
def inRange (a b : ℤ) (r : Record) : Bool :=
decide (a ≤ r.year) && decide (r.year ≤ b)

/-- The script's preparation pipeline, lines 134-144: year coercion, dropna,
then the inclusive year-range filter.  No sorting step exists anywhere in the
script. -/
def prepare (df : DataFrame) (a b : ℤ) : Except PyError (List Record) :=
match coerceYears df with
| .error e => .error e
| .ok l1 =>
  match dropnaStep df.columns l1 with
  | .error e => .error e
  | .ok l2 => .ok (l2.filter (inRange a b))

/-! ## The spec's `prepare` contract, for comparison -/

/-- The cleaning the spec prescribes: coerce the year (non-numeric treated as
missing), then drop any record missing the year or a metric value. -/
def specClean (df : DataFrame) : List Record :=
df.rows.filterMap fun r => (coerceRow r).bind toRecord

/-- Insert a record into a list sorted ascending by year. -/
def insertByYear (r : Record) : List Record → List Record
| [] => [r]
| s :: t => if r.year ≤ s.year then r :: s :: t else s :: insertByYear r t

/-- Insertion sort ascending by year. -/
def sortByYear : List Record → List Record
| [] => []
| r :: t => insertByYear r (sortByYear t)

/-- Modelled from the spec: `prepare` with the typed error taxonomy (§4.1),
absent from the source — the script substitutes an empty frame on load
failure and has no column check or sort step.  Fails `SourceUnreadable` when
the source cannot be fetched or opened, `MalformedSource` when it cannot be
parsed as a table, `MissingColumn` when a required column is absent, and
otherwise cleans, sorts by year and filters to the inclusive range. -/
def specPrepare (load : LoadResult) (a b : ℤ) : Except ErrorType (List Record) :=
match load with
| .fileNotFound => .error .SourceUnreadable
| .otherError => .error .SourceUnreadable
| .emptyData => .error .MalformedSource
| .parserError => .error .MalformedSource
| .ok df =>
  if subsetCols.all (fun c => df.columns.contains c) then
    .ok ((sortByYear (specClean df)).filter (inRange a b))
  else .error .MissingColumn

/-- Ascending-by-year check on a prepared dataset. -/
def sortedByYear : List Record → Bool
| [] => true
| [_] => true
| r :: s :: t => decide (r.year ≤ s.year) && sortedByYear (s :: t)

/-! ## The analysis blocks (lines 157-294) -/

/-- The numbers one analysis block reports. -/
inductive Stat
| trend (slope intercept : ℚ)
| coef (c : ℚ)
| corrStat (c vx vy : ℚ)
| coefPair (renewC forestC : ℚ)
deriving DecidableEq, Repr

/-- What one block leaves on the page: its statistics, or the generic error
message of its `except` clause. -/
inductive Display
| shown (s : Stat)
| errorMsg (m : String)
deriving DecidableEq, Repr

/-- Year/temperature pairs of a prepared dataset. -/
def yearTempPairs (l : List Record) : List (ℚ × ℚ) :=
l.map fun r => ((r.year : ℚ), r.temp)

/-- CO2/temperature pairs. -/
def co2TempPairs (l : List Record) : List (ℚ × ℚ) :=
l.map fun r => (r.co2, r.temp)

/-- Year/sea-level pairs. -/
def yearSeaPairs (l : List Record) : List (ℚ × ℚ) :=
l.map fun r => ((r.year : ℚ), r.sea)

/-- CO2/extreme-events pairs. -/
def co2EventsPairs (l : List Record) : List (ℚ × ℚ) :=
l.map fun r => (r.co2, r.events)

/-- Renewables/CO2 pairs. -/
def renewCo2Pairs (l : List Record) : List (ℚ × ℚ) :=
l.map fun r => (r.renew, r.co2)

/-- Forest-area/CO2 pairs. -/
def forestCo2Pairs (l : List Record) : List (ℚ × ℚ) :=
l.map fun r => (r.forest, r.co2)

/-- Result 1 (lines 159-189): temperature-vs-year OLS; the block fails when
the regression is undefined. -/
def block1 (l : List Record) : Except String Stat :=
match linregress (yearTempPairs l) with
| some (s, i) => .ok (.trend s i)
| none => .error "Could not generate Global Temperature Trend"

/-- Result 2 (lines 193-211): sklearn fit of temperature against CO2; the
interpretation reports only the coefficient. -/
def block2 (l : List Record) : Except String Stat :=
match linregress (co2TempPairs l) with
| some (s, _) => .ok (.coef s)
| none => .error "Could not generate CO2 vs Temperature"

/-- Result 3 (lines 215-245): sea-level-vs-year OLS. -/
def block3 (l : List Record) : Except String Stat :=
match linregress (yearSeaPairs l) with
| some (s, i) => .ok (.trend s i)
| none => .error "Could not generate Sea Level Rise"

/-- Result 4 (lines 249-264): Pearson correlation of extreme events against
CO2; undefined (NaN) when either column has zero variance.  The reported
coefficient is `c / √(vx·vy)` of the carried exact sums. -/
def block4 (l : List Record) : Except String Stat :=
let p := co2EventsPairs l
if varxS p = 0 ∨ varyS p = 0 then
  .error "Could not generate Extreme Weather Events plot"
else .ok (.corrStat (covS p) (varxS p) (varyS p))

/-- Result 5 (lines 268-294): two sklearn fits of CO2 against renewables and
forest area. -/
def block5 (l : List Record) : Except String Stat :=
match linregress (renewCo2Pairs l), linregress (forestCo2Pairs l) with
| some (r, _), some (f, _) => .ok (.coefPair r f)
| _, _ => .error "Could not generate Renewable Energy & Forest Area plots"

/-- The five analysis blocks of the dashboard body, in page order. -/
def analyses (l : List Record) : List (Except String Stat) :=
[block1 l, block2 l, block3 l, block4 l, block5 l]

/-- The `except` clause of one try/except wrapper: a failing block leaves an
error message; a succeeding one shows its statistics. -/
def handleBlock : Except String Stat → Display
| .ok s => .shown s
| .error m => .errorMsg m

/-- Sequential rendering of the blocks: each block runs inside its own
try/except and appends exactly one display to the page. -/
def runBlocks : List (Except String Stat) → List Display → List Display
| [], acc => acc
| b :: bs, acc => runBlocks bs (acc ++ [handleBlock b])

/-- The dashboard body on a non-empty filtered dataset. -/
def body (l : List Record) : List Display := runBlocks (analyses l) []

/-- What the page shows after the pipeline. -/
inductive PageOut
| noDataWarning
| results (page : List Display)
deriving DecidableEq, Repr

/-- Outcome of one whole script run. -/
inductive ScriptResult
| crashed (e : PyError)
| page (p : PageOut)
deriving DecidableEq, Repr

/-- The whole script: load (with its fallback), prepare, then either the
empty-data warning (lines 147-148) or the five analysis blocks. -/
def run (load : LoadResult) (a b : ℤ) : ScriptResult :=
match prepare (fallbackDF load) a b with
| .error e => .crashed e
| .ok [] => .page .noDataWarning
| .ok l => .page (.results (body l))

/-! ## Concrete example data -/

/-- The spec's worked example: records (Year=2000, Temp=14.0) and
(Year=2001, Temp=14.5) as a regression pair list. -/
def exTwo : List (ℚ × ℚ) := [(2000, 14), (2001, 29/2)]

/-- Two complete records whose CO2 column is constant: a zero-variance
predictor for the CO2-vs-temperature regression. -/
def constCo2Records : List Record :=
[⟨2000, 14, 8, 30, 40, 10, 3⟩, ⟨2001, 15, 8, 30, 40, 10, 3⟩]

/-- A fully populated raw row with the given numeric year. -/
def rawRowOf (y : ℚ) : RawRow :=
⟨.num y, some 14, some 8, some 30, some 40, some 10, some 3⟩

/-- A raw table whose rows arrive in descending year order (2001 before
2000), with every required column present and complete. -/
def dfUnsorted : DataFrame := ⟨subsetCols, [rawRowOf 2001, rawRowOf 2000]⟩

/-- The record `rawRowOf 2001` cleans to. -/
def rec2001 : Record := ⟨2001, 14, 8, 30, 40, 10, 3⟩

/-- The record `rawRowOf 2000` cleans to. -/
def rec2000 : Record := ⟨2000, 14, 8, 30, 40, 10, 3⟩

/-- A raw row whose year cell holds a non-numeric string. -/
def textYearRow : RawRow :=
⟨.text, some 14, some 8, some 30, some 40, some 10, some 3⟩

/-- A raw table with one good row (year 2020) and one row whose year is a
non-numeric string. -/
def dfBadYear : DataFrame := ⟨subsetCols, [rawRowOf 2020, textYearRow]⟩

/-- The record `rawRowOf 2020` cleans to. -/
def rec2020 : Record := ⟨2020, 14, 8, 30, 40, 10, 3⟩

/-- A parsed table that lacks the temperature column. -/
def dfNoTemp : DataFrame :=
⟨["Year", "CO2 Emissions (Tons/Capita)", "Renewable Energy (%)",
  "Forest Area (%)", "Extreme Weather Events", "Sea Level Rise (mm)"],
 [rawRowOf 2020]⟩

/-- A well-formed table whose only record (year 1990) falls outside the
dashboard's 2000-2024 slider range. -/
def dfOld : DataFrame := ⟨subsetCols, [rawRowOf 1990]⟩

/-! ## Expansion lemmas for centered sums -/

theorem sum_map_sub_sq_fst (l : List (ℚ × ℚ)) (m : ℚ) :
    (l.map fun p => (p.1 - m) ^ 2).sum
      = sumXX l - 2 * m * sumX l + l.length * m ^ 2 := by
  induction l with
  | nil => simp [sumXX, sumX]
  | cons a t ih =>
      simp only [sumXX, sumX, List.map_cons, List.sum_cons, List.length_cons] at ih ⊢
      rw [ih]
      push_cast
      ring

theorem sum_map_sub_mul (l : List (ℚ × ℚ)) (mx my : ℚ) :
    (l.map fun p => (p.1 - mx) * (p.2 - my)).sum
      = sumXY l - my * sumX l - mx * sumY l + l.length * (mx * my) := by
  induction l with
  | nil => simp [sumXY, sumX, sumY]
  | cons a t ih =>
      simp only [sumXY, sumX, sumY, List.map_cons, List.sum_cons,
        List.length_cons] at ih ⊢
      rw [ih]
      push_cast
      ring

theorem varxS_mul_length (l : List (ℚ × ℚ)) (hn : (l.length : ℚ) ≠ 0) :
    (l.length : ℚ) * varxS l = olsDenom l := by
  rw [varxS, sum_map_sub_sq_fst, meanX, olsDenom]
  field_simp
  ring

theorem covS_mul_length (l : List (ℚ × ℚ)) (hn : (l.length : ℚ) ≠ 0) :
    (l.length : ℚ) * covS l
      = (l.length : ℚ) * sumXY l - sumX l * sumY l := by
  rw [covS, sum_map_sub_mul, meanX, meanY]
  field_simp
  ring

theorem fitSlope_eq_div (l : List (ℚ × ℚ)) (hn : (l.length : ℚ) ≠ 0) :
    fitSlope l = covS l / varxS l := by
  rw [fitSlope, div_div_div_cancel_right₀ hn]

theorem olsSlope_eq_fitSlope (l : List (ℚ × ℚ)) (hn : (l.length : ℚ) ≠ 0)
    (hv : varxS l ≠ 0) : olsSlope l = fitSlope l := by
  have hd : olsDenom l ≠ 0 := by
    rw [← varxS_mul_length l hn]; exact mul_ne_zero hn hv
  rw [fitSlope_eq_div l hn, olsSlope, div_eq_div_iff hd hv]
  rw [← varxS_mul_length l hn, ← covS_mul_length l hn]
  ring

/-- C1: for every dataset with at least 2 records and a non-zero-variance
predictor column, `fit_trend` returns exactly the spec's closed-form OLS
values — slope `covariance/variance`, intercept `ȳ − slope·x̄` — and these
agree (exactly, in the rational model that idealises the floating-point
tolerance) with the normal-equation slope and intercept of the script's
library regression routine `linregress`. -/
theorem fit_trend_refines_library_ols (l : List (ℚ × ℚ))
    (h2 : 2 ≤ l.length) (hv : varxS l ≠ 0) :
    fit_trend l = .ok (fitSlope l, fitIntercept l)
      ∧ linregress l = some (fitSlope l, fitIntercept l) := by
  have hn : (l.length : ℚ) ≠ 0 := Nat.cast_ne_zero.mpr (by omega)
  have hd : olsDenom l ≠ 0 := by
    rw [← varxS_mul_length l hn]; exact mul_ne_zero hn hv
  refine ⟨?_, ?_⟩
  · have hcond : ¬ (l.length < 2 ∨ varxS l = 0) := by
      push_neg
      exact ⟨by omega, hv⟩
    rw [fit_trend, if_neg hcond]
  · rw [linregress, if_neg hd]
    have hs := olsSlope_eq_fitSlope l hn hv
    have hi : olsIntercept l = fitIntercept l := by
      rw [olsIntercept, hs, fitIntercept, meanY, meanX]
      field_simp
    rw [hs, hi]

/-- Witness for C1: the spec's two-record example satisfies the hypotheses
and the conclusion. -/
theorem fit_trend_refines_library_ols_witness :
    2 ≤ exTwo.length ∧ varxS exTwo ≠ 0
      ∧ (fit_trend exTwo = .ok (fitSlope exTwo, fitIntercept exTwo)
          ∧ linregress exTwo = some (fitSlope exTwo, fitIntercept exTwo)) :=
  ⟨by decide, by norm_num [varxS, meanX, sumX, exTwo],
    fit_trend_refines_library_ols exTwo (by decide)
      (by norm_num [varxS, meanX, sumX, exTwo])⟩

theorem varxS_pair (x1 y1 x2 y2 : ℚ) :
    varxS [(x1, y1), (x2, y2)] = (x1 - x2) ^ 2 / 2 := by
  simp only [varxS, meanX, sumX, List.map_cons, List.map_nil, List.sum_cons,
    List.sum_nil, List.length_cons, List.length_nil]
  push_cast
  ring

theorem covS_pair (x1 y1 x2 y2 : ℚ) :
    covS [(x1, y1), (x2, y2)] = (x1 - x2) * (y1 - y2) / 2 := by
  simp only [covS, meanX, meanY, sumX, sumY, List.map_cons, List.map_nil,
    List.sum_cons, List.sum_nil, List.length_cons, List.length_nil]
  push_cast
  ring

/-- C6: on the spec's example records (Year=2000, Temp=14.0) and
(Year=2001, Temp=14.5), the fitted trend is slope 1/2 and intercept −986
(exact rational arithmetic); and in general, on any dataset of exactly two
records with distinct predictor values, the fitted line passes exactly
through both points. -/
theorem two_point_fit (x1 y1 x2 y2 : ℚ) (hx : x1 ≠ x2) :
    (fitSlope [(x1, y1), (x2, y2)] * x1 + fitIntercept [(x1, y1), (x2, y2)] = y1
      ∧ fitSlope [(x1, y1), (x2, y2)] * x2 + fitIntercept [(x1, y1), (x2, y2)] = y2)
      ∧ fit_trend exTwo = .ok (1/2, -986) := by
  have hne : x1 - x2 ≠ 0 := sub_ne_zero.mpr hx
  have hslope : fitSlope [(x1, y1), (x2, y2)] = (y1 - y2) / (x1 - x2) := by
    rw [fitSlope_eq_div _ (by norm_num), covS_pair, varxS_pair]
    field_simp
    ring
  have hmx : meanX [(x1, y1), (x2, y2)] = (x1 + x2) / 2 := by
    simp only [meanX, sumX, List.map_cons, List.map_nil, List.sum_cons,
      List.sum_nil, List.length_cons, List.length_nil]
    push_cast
    ring
  have hmy : meanY [(x1, y1), (x2, y2)] = (y1 + y2) / 2 := by
    simp only [meanY, sumY, List.map_cons, List.map_nil, List.sum_cons,
      List.sum_nil, List.length_cons, List.length_nil]
    push_cast
    ring
  refine ⟨⟨?_, ?_⟩, ?_⟩
  · rw [fitIntercept, hslope, hmx, hmy]
    field_simp
    ring
  · rw [fitIntercept, hslope, hmx, hmy]
    field_simp
    ring
  · have hva : varxS exTwo ≠ 0 := by
      rw [show exTwo = [((2000:ℚ), (14:ℚ)), (2001, 29/2)] from rfl, varxS_pair]
      norm_num
    have hcond : ¬ (exTwo.length < 2 ∨ varxS exTwo = 0) := by
      push_neg
      exact ⟨by decide, hva⟩
    rw [fit_trend, if_neg hcond]
    have h1 : fitSlope exTwo = 1/2 := by
      rw [show exTwo = [((2000:ℚ), (14:ℚ)), (2001, 29/2)] from rfl,
        fitSlope_eq_div _ (by norm_num), covS_pair, varxS_pair]
      norm_num
    have h2 : fitIntercept exTwo = -986 := by
      rw [fitIntercept, h1]
      rw [show exTwo = [((2000:ℚ), (14:ℚ)), (2001, 29/2)] from rfl]
      simp only [meanY, meanX, sumX, sumY, List.map_cons, List.map_nil,
        List.sum_cons, List.sum_nil, List.length_cons, List.length_nil]
      norm_num
    rw [h1, h2]

/-- C3 (code bug): the script never guards the degenerate regression inputs.
On zero-variance or fewer-than-2-record datasets, the library routine it
calls is undefined (`none`: NaN or a raised library error swallowed by the
generic except clause) — among them the CO2-vs-temperature block on a
constant CO2 column — whereas the spec's `fit_trend` contract demands the
typed `InsufficientData` failure, which the guarded model produces. -/
theorem zero_variance_unguarded :
    (linregress [((5:ℚ), (1:ℚ)), (5, 2)] = none
      ∧ linregress [((7:ℚ), (3:ℚ))] = none
      ∧ linregress ([] : List (ℚ × ℚ)) = none
      ∧ block2 constCo2Records = .error "Could not generate CO2 vs Temperature")
      ∧ (fit_trend [((5:ℚ), (1:ℚ)), (5, 2)] = .error .InsufficientData
        ∧ fit_trend [((7:ℚ), (3:ℚ))] = .error .InsufficientData
        ∧ fit_trend ([] : List (ℚ × ℚ)) = .error .InsufficientData) := by
  refine ⟨⟨?_, ?_, ?_, ?_⟩, ?_, ?_, ?_⟩
  · norm_num [linregress, olsDenom, sumXX, sumX]
  · norm_num [linregress, olsDenom, sumXX, sumX]
  · norm_num [linregress, olsDenom, sumXX, sumX]
  · norm_num [block2, co2TempPairs, constCo2Records, linregress, olsDenom,
      sumXX, sumX]
  · rw [fit_trend, if_pos (Or.inr (by rw [varxS_pair]; norm_num))]
  · rw [fit_trend, if_pos (Or.inl (by norm_num))]
  · rw [fit_trend, if_pos (Or.inl (by norm_num))]

/-- C2 counterexample: on a raw table whose complete, in-range rows arrive in
descending year order, the script's preparation returns them in that same
order — the prepared dataset is not sorted ascending by year. -/
theorem prepare_not_sorted_counterexample :
    prepare dfUnsorted 2000 2001 = .ok [rec2001, rec2000]
      ∧ sortedByYear [rec2001, rec2000] = false := by
  constructor
  · rfl
  · decide

/-- C2 amended: every record of a successfully prepared dataset lies in the
inclusive year range, and the prepared dataset is a subsequence of the
cleaned raw rows — source order is preserved, so it is sorted by year only
when the raw data already is (the script has no sorting step). -/
theorem prepare_inRange_and_order (df : DataFrame) (a b : ℤ)
    (l : List Record) (h : prepare df a b = .ok l) :
    (∀ r ∈ l, a ≤ r.year ∧ r.year ≤ b)
      ∧ l.Sublist ((df.rows.filterMap coerceRow).filterMap toRecord) := by
  unfold prepare at h
  cases hc : coerceYears df with
  | error e => rw [hc] at h; simp at h
  | ok l1 =>
    rw [hc] at h
    dsimp only at h
    cases hd : dropnaStep df.columns l1 with
    | error e => rw [hd] at h; simp at h
    | ok l2 =>
      rw [hd] at h
      dsimp only at h
      simp only [Except.ok.injEq] at h
      have hl1 : l1 = df.rows.filterMap coerceRow := by
        unfold coerceYears at hc
        split_ifs at hc
        simp_all
      have hl2 : l2 = l1.filterMap toRecord := by
        unfold dropnaStep at hd
        cases hf : subsetCols.find? (fun c => !(df.columns.contains c)) with
        | some c => rw [hf] at hd; simp at hd
        | none => rw [hf] at hd; simpa using hd.symm
      subst h
      constructor
      · intro r hr
        have hm := List.mem_filter.mp hr
        have hb := hm.2
        simp only [inRange, Bool.and_eq_true, decide_eq_true_eq] at hb
        exact hb
      · rw [← hl1, ← hl2]
        exact List.filter_sublist l2

/-- Witness for C2's amended statement at the descending-order table. -/
theorem prepare_inRange_and_order_witness :
    (∀ r ∈ [rec2001, rec2000], 2000 ≤ r.year ∧ r.year ≤ 2001)
      ∧ List.Sublist [rec2001, rec2000]
          ((dfUnsorted.rows.filterMap coerceRow).filterMap toRecord) :=
  prepare_inRange_and_order dfUnsorted 2000 2001 [rec2001, rec2000] (by rfl)

/-- Witness for C6 at the spec's example records. -/
theorem two_point_fit_witness :
    (2000 : ℚ) ≠ 2001
      ∧ ((fitSlope exTwo * 2000 + fitIntercept exTwo = 14
          ∧ fitSlope exTwo * 2001 + fitIntercept exTwo = 29/2)
        ∧ fit_trend exTwo = .ok (1/2, -986)) :=
  ⟨by norm_num, two_point_fit 2000 14 2001 (29/2) (by norm_num)⟩

/-- C4 (code bug): no load or column failure surfaces as a typed error.  On
every fetch, empty-file or parse failure the script binds an empty frame and
then crashes with an unhandled `KeyError('Year')`; on a missing required
column it crashes with an unhandled `KeyError` on that column.  The spec's
`prepare` contract instead surfaces `SourceUnreadable`, `MalformedSource` or
`MissingColumn` to the caller. -/
theorem load_failures_not_typed :
    (run .fileNotFound 2000 2024 = .crashed (.keyError "Year")
      ∧ run .emptyData 2000 2024 = .crashed (.keyError "Year")
      ∧ run .parserError 2000 2024 = .crashed (.keyError "Year")
      ∧ run .otherError 2000 2024 = .crashed (.keyError "Year")
      ∧ run (.ok dfNoTemp) 2000 2024
          = .crashed (.keyError "Avg Temperature (°C)"))
      ∧ (specPrepare .fileNotFound 2000 2024 = .error .SourceUnreadable
        ∧ specPrepare .emptyData 2000 2024 = .error .MalformedSource
        ∧ specPrepare .parserError 2000 2024 = .error .MalformedSource
        ∧ specPrepare .otherError 2000 2024 = .error .SourceUnreadable
        ∧ specPrepare (.ok dfNoTemp) 2000 2024 = .error .MissingColumn) :=
  ⟨⟨rfl, rfl, rfl, rfl, rfl⟩, rfl, rfl, rfl, rfl, rfl⟩

/-- C5 (code bug): a raw table containing one non-numeric year value does not
have that record silently dropped — `astype(int)` at line 134 crashes on the
NaN produced by `errors='coerce'` before the dropna can remove it, so the
whole preparation raises `IntCastingNaNError`.  The spec's cleaning instead
drops the record and keeps the rest. -/
theorem nonNumeric_year_crashes :
    prepare dfBadYear 2000 2024 = .error .intCastingNaN
      ∧ specPrepare (.ok dfBadYear) 2000 2024 = .ok [rec2020] :=
  ⟨rfl, rfl⟩

/-- C9: when the frame is well-formed (year column present, all required
columns present, every year numeric) but cleaning and year filtering leave
zero records, the preparation succeeds with the empty dataset — no error —
and the script's caller branch reacts by showing the no-data warning and
skipping every analysis. -/
theorem empty_filter_warns (df : DataFrame) (a b : ℤ)
    (hy : "Year" ∈ df.columns)
    (hall : df.rows.all (fun r => (toNumericCoerce r.year).isSome) = true)
    (hcols : subsetCols.find? (fun c => !(df.columns.contains c)) = none)
    (hempty : ((df.rows.filterMap coerceRow).filterMap toRecord).filter
        (inRange a b) = []) :
    prepare df a b = .ok [] ∧ run (.ok df) a b = .page .noDataWarning := by
  have hp : prepare df a b = .ok [] := by
    unfold prepare coerceYears dropnaStep
    rw [if_pos hy, if_pos hall, hcols]
    dsimp only
    rw [hempty]
  refine ⟨hp, ?_⟩
  unfold run fallbackDF
  rw [hp]

/-- Witness for C9: a table whose only record (year 1990) falls outside the
2000-2024 range. -/
theorem empty_filter_warns_witness :
    prepare dfOld 2000 2024 = .ok []
      ∧ run (.ok dfOld) 2000 2024 = .page .noDataWarning :=
  empty_filter_warns dfOld 2000 2024 (by decide) (by decide) (by decide)
    (by decide)

/-- C10: whenever loading the dataset fails, every handler binds the empty
DataFrame, and line 134 then accesses its absent `Year` column: the script
dies with an unhandled `KeyError('Year')`, so the fallback never reaches the
cleaning, filtering or empty-data-warning stages. -/
theorem load_fallback_keyerror (load : LoadResult) (a b : ℤ)
    (h : ∀ df, load ≠ .ok df) :
    run load a b = .crashed (.keyError "Year") := by
  cases load with
  | ok df => exact absurd rfl (h df)
  | fileNotFound => rfl
  | emptyData => rfl
  | parserError => rfl
  | otherError => rfl

/-- Witness for C10 at the file-not-found outcome. -/
theorem load_fallback_keyerror_witness :
    (∀ df, LoadResult.fileNotFound ≠ .ok df)
      ∧ run .fileNotFound 2000 2024 = .crashed (.keyError "Year") :=
  ⟨fun _ h => LoadResult.noConfusion h,
    load_fallback_keyerror .fileNotFound 2000 2024
      (fun _ h => LoadResult.noConfusion h)⟩

theorem runBlocks_eq_map (bs : List (Except String Stat)) (acc : List Display) :
    runBlocks bs acc = acc ++ bs.map handleBlock := by
  induction bs generalizing acc with
  | nil => simp [runBlocks]
  | cons b t ih => simp [runBlocks, ih]

/-- C8: every analysis block is attempted and reported independently of the
others.  For any outcomes of the blocks, the rendered page has one display
per block and its i-th display is a function of the i-th block's outcome
alone — so one failing metric pair cannot prevent the others from being
computed and reported — and the dashboard body instantiates this with the
script's five try/except-wrapped blocks. -/
theorem analyses_independent :
    (∀ (bs : List (Except String Stat)) (i : ℕ),
        (runBlocks bs []).length = bs.length
          ∧ (runBlocks bs [])[i]? = bs[i]?.map handleBlock)
      ∧ ∀ l : List Record, body l = (analyses l).map handleBlock := by
  refine ⟨fun bs i => ?_, fun l => ?_⟩
  · rw [runBlocks_eq_map]
    simp [List.getElem?_map]
  · rw [body, runBlocks_eq_map]
    simp

/-! ## Pearson correlation -/

theorem sum_map_eq_fin_sum (l : List (ℚ × ℚ)) (f : ℚ × ℚ → ℚ) :
    (l.map f).sum = ∑ i : Fin l.length, f (l.get i) := by
  rw [← List.ofFn_get_eq_map, Fin.sum_ofFn]

theorem varxS_nonneg (l : List (ℚ × ℚ)) : 0 ≤ varxS l := by
  apply List.sum_nonneg
  intro a ha
  obtain ⟨p, hp, rfl⟩ := List.mem_map.mp ha
  positivity

theorem varyS_nonneg (l : List (ℚ × ℚ)) : 0 ≤ varyS l := by
  apply List.sum_nonneg
  intro a ha
  obtain ⟨p, hp, rfl⟩ := List.mem_map.mp ha
  positivity

theorem covS_sq_le_var_mul (l : List (ℚ × ℚ)) :
    covS l ^ 2 ≤ varxS l * varyS l := by
  rw [covS, varxS, varyS, sum_map_eq_fin_sum, sum_map_eq_fin_sum,
    sum_map_eq_fin_sum]
  exact Finset.sum_mul_sq_le_sq_mul_sq Finset.univ
    (fun i => (l.get i).1 - meanX l) (fun i => (l.get i).2 - meanY l)

theorem pearson_bounds (l : List (ℚ × ℚ)) (hx : varxS l ≠ 0)
    (hy : varyS l ≠ 0) : -1 ≤ pearson l ∧ pearson l ≤ 1 := by
  have hAq : 0 < varxS l := lt_of_le_of_ne (varxS_nonneg l) (Ne.symm hx)
  have hBq : 0 < varyS l := lt_of_le_of_ne (varyS_nonneg l) (Ne.symm hy)
  have hA : (0:ℝ) < ((varxS l : ℚ) : ℝ) := by exact_mod_cast hAq
  have hB : (0:ℝ) < ((varyS l : ℚ) : ℝ) := by exact_mod_cast hBq
  have hCS : ((covS l : ℚ) : ℝ) ^ 2
      ≤ ((varxS l : ℚ) : ℝ) * ((varyS l : ℚ) : ℝ) := by
    exact_mod_cast covS_sq_le_var_mul l
  have hD : (0:ℝ) < Real.sqrt ((varxS l : ℚ)) * Real.sqrt ((varyS l : ℚ)) :=
    mul_pos (Real.sqrt_pos.mpr hA) (Real.sqrt_pos.mpr hB)
  have habs : |((covS l : ℚ) : ℝ)|
      ≤ Real.sqrt ((varxS l : ℚ)) * Real.sqrt ((varyS l : ℚ)) := by
    calc |((covS l : ℚ) : ℝ)|
        = Real.sqrt (((covS l : ℚ) : ℝ) ^ 2) := (Real.sqrt_sq_eq_abs _).symm
      _ ≤ Real.sqrt (((varxS l : ℚ) : ℝ) * ((varyS l : ℚ) : ℝ)) :=
          Real.sqrt_le_sqrt hCS
      _ = _ := Real.sqrt_mul hA.le _
  have h1 := (abs_le.mp habs).1
  have h2 := (abs_le.mp habs).2
  constructor
  · rw [pearson, le_div_iff hD]
    linarith
  · rw [pearson, div_le_one hD]
    exact h2

theorem prop_meanY (c : ℚ) (xl : List ℚ) :
    meanY (xl.map fun x => (x, c * x))
      = c * meanX (xl.map fun x => (x, c * x)) := by
  simp only [meanY, meanX, sumY, sumX, List.map_map, List.length_map]
  rw [show ((Prod.snd ∘ fun x : ℚ => (x, c * x)) = fun x : ℚ => c * x)
      from rfl]
  rw [show ((Prod.fst ∘ fun x : ℚ => (x, c * x)) = fun x : ℚ => x) from rfl]
  rw [show (xl.map fun x => c * x).sum = c * (xl.map fun x => x).sum from by
      simpa using List.sum_map_mul_left xl (fun x => x) c]
  rw [mul_div_assoc]

theorem prop_covS (c : ℚ) (xl : List ℚ) :
    covS (xl.map fun x => (x, c * x))
      = c * varxS (xl.map fun x => (x, c * x)) := by
  rw [covS, varxS, prop_meanY]
  simp only [List.map_map]
  rw [show ((fun p : ℚ × ℚ =>
        (p.1 - meanX (xl.map fun x => (x, c * x)))
          * (p.2 - c * meanX (xl.map fun x => (x, c * x))))
        ∘ fun x : ℚ => (x, c * x))
      = fun x : ℚ =>
          c * ((x - meanX (xl.map fun x => (x, c * x))) ^ 2) from by
    funext x
    simp only [Function.comp]
    ring]
  rw [show ((fun p : ℚ × ℚ =>
        (p.1 - meanX (xl.map fun x => (x, c * x))) ^ 2)
        ∘ fun x : ℚ => (x, c * x))
      = fun x : ℚ =>
          (x - meanX (xl.map fun x => (x, c * x))) ^ 2 from by
    funext x
    simp [Function.comp]]
  simpa using List.sum_map_mul_left xl
    (fun x => (x - meanX (xl.map fun x => (x, c * x))) ^ 2) c

theorem prop_varyS (c : ℚ) (xl : List ℚ) :
    varyS (xl.map fun x => (x, c * x))
      = c ^ 2 * varxS (xl.map fun x => (x, c * x)) := by
  rw [varyS, varxS, prop_meanY]
  simp only [List.map_map]
  rw [show ((fun p : ℚ × ℚ =>
        (p.2 - c * meanX (xl.map fun x => (x, c * x))) ^ 2)
        ∘ fun x : ℚ => (x, c * x))
      = fun x : ℚ =>
          c ^ 2 * ((x - meanX (xl.map fun x => (x, c * x))) ^ 2) from by
    funext x
    simp only [Function.comp]
    ring]
  rw [show ((fun p : ℚ × ℚ =>
        (p.1 - meanX (xl.map fun x => (x, c * x))) ^ 2)
        ∘ fun x : ℚ => (x, c * x))
      = fun x : ℚ =>
          (x - meanX (xl.map fun x => (x, c * x))) ^ 2 from by
    funext x
    simp [Function.comp]]
  simpa using List.sum_map_mul_left xl
    (fun x => (x - meanX (xl.map fun x => (x, c * x))) ^ 2) (c ^ 2)

theorem pearson_prop_of_ne (c : ℚ) (xl : List ℚ) (hc : c ≠ 0)
    (hv : varxS (xl.map fun x => (x, c * x)) ≠ 0) :
    pearson (xl.map fun x => (x, c * x))
      = (c : ℝ) / |(c : ℝ)| := by
  set L := xl.map fun x => (x, c * x) with hL
  have hVq : 0 < varxS L := lt_of_le_of_ne (varxS_nonneg L) (Ne.symm hv)
  have hV : (0:ℝ) < ((varxS L : ℚ) : ℝ) := by exact_mod_cast hVq
  have hcR : ((c : ℚ) : ℝ) ≠ 0 := by exact_mod_cast hc
  rw [pearson, prop_covS, prop_varyS]
  push_cast
  rw [show ((c : ℝ) ^ 2 * ((varxS L : ℚ) : ℝ))
      = ((c : ℝ) ^ 2) * ((varxS L : ℚ) : ℝ) from rfl]
  rw [Real.sqrt_mul (by positivity : (0:ℝ) ≤ (c:ℝ) ^ 2),
    Real.sqrt_sq_eq_abs]
  have hsq : Real.sqrt ((varxS L : ℚ)) * (|(c : ℝ)| * Real.sqrt ((varxS L : ℚ)))
      = |(c : ℝ)| * ((varxS L : ℚ) : ℝ) := by
    rw [mul_left_comm, Real.mul_self_sqrt hV.le]
  rw [hsq]
  rw [div_eq_div_iff (by positivity) (by positivity)]
  ring

/-- C7: the correlation the script computes is the Pearson coefficient and
always lies in [−1, 1] on data with at least two records and non-degenerate
columns; on exactly proportional sequences with positive factor it equals 1,
and with negative factor (inversely correlated) it equals −1. -/
theorem pearson_correlation_props :
    (∀ l : List (ℚ × ℚ), 2 ≤ l.length → varxS l ≠ 0 → varyS l ≠ 0 →
        -1 ≤ pearson l ∧ pearson l ≤ 1)
      ∧ (∀ (c : ℚ) (xl : List ℚ), 0 < c →
          varxS (xl.map fun x => (x, c * x)) ≠ 0 →
          pearson (xl.map fun x => (x, c * x)) = 1)
      ∧ (∀ (c : ℚ) (xl : List ℚ), c < 0 →
          varxS (xl.map fun x => (x, c * x)) ≠ 0 →
          pearson (xl.map fun x => (x, c * x)) = -1) := by
  refine ⟨fun l _ hx hy => pearson_bounds l hx hy, ?_, ?_⟩
  · intro c xl hc hv
    rw [pearson_prop_of_ne c xl (ne_of_gt hc) hv]
    have : |(c : ℝ)| = (c : ℝ) := abs_of_pos (by exact_mod_cast hc)
    rw [this]
    exact div_self (by exact_mod_cast ne_of_gt hc)
  · intro c xl hc hv
    rw [pearson_prop_of_ne c xl (ne_of_lt hc) hv]
    have : |(c : ℝ)| = -(c : ℝ) := abs_of_neg (by exact_mod_cast hc)
    rw [this, div_neg, div_self (by exact_mod_cast ne_of_lt hc)]

/-- Witness for C7: the spec's example sequences [1,2,3] against [2,4,6]
(factor 2) and against [−2,−4,−6] (factor −2), plus the bounds at the
former. -/
theorem pearson_correlation_props_witness :
    (2 ≤ ([((1:ℚ), (2:ℚ)), (2, 4), (3, 6)]).length
      ∧ varxS [((1:ℚ), (2:ℚ)), (2, 4), (3, 6)] ≠ 0
      ∧ varyS [((1:ℚ), (2:ℚ)), (2, 4), (3, 6)] ≠ 0
      ∧ (-1 ≤ pearson [((1:ℚ), (2:ℚ)), (2, 4), (3, 6)]
          ∧ pearson [((1:ℚ), (2:ℚ)), (2, 4), (3, 6)] ≤ 1))
      ∧ pearson ([(1:ℚ), 2, 3].map fun x => (x, (2:ℚ) * x)) = 1
      ∧ pearson ([(1:ℚ), 2, 3].map fun x => (x, (-2:ℚ) * x)) = -1 := by
  have hvx : varxS [((1:ℚ), (2:ℚ)), (2, 4), (3, 6)] ≠ 0 := by
    norm_num [varxS, meanX, sumX]
  have hvy : varyS [((1:ℚ), (2:ℚ)), (2, 4), (3, 6)] ≠ 0 := by
    norm_num [varyS, meanY, sumY]
  have hvp : varxS ([(1:ℚ), 2, 3].map fun x => (x, (2:ℚ) * x)) ≠ 0 := by
    norm_num [varxS, meanX, sumX]
  have hvn : varxS ([(1:ℚ), 2, 3].map fun x => (x, (-2:ℚ) * x)) ≠ 0 := by
    norm_num [varxS, meanX, sumX]
  refine ⟨⟨by decide, hvx, hvy,
      pearson_correlation_props.1 _ (by decide) hvx hvy⟩, ?_, ?_⟩
  · exact pearson_correlation_props.2.1 2 [1, 2, 3] (by norm_num) hvp
  · exact pearson_correlation_props.2.2 (-2) [1, 2, 3] (by norm_num) hvn

end Climate
